import Mathlib

/-!  Verification of the nodeserver1 file-backed record store.

The repository contains three near-duplicate Express servers:
* `src/server.js`, the item-storage variant, modelled in namespace `Srv`;
* `src/unnamed/part_000`, an item-storage variant with per-request user
  resolution and a twice-registered logging middleware, namespace `P0`
  (its `readData`, `writeData` and `safeFileOperation` are textually
  identical to the ones in `src/server.js` and are shared from `Srv`);
* `src/unnamed/part_001`, the conversation-oriented variant, namespace `P1`.

JSON values are modelled by the inductive type `Json`.  The byte content
of a file on disk is abstracted by `DiskContent`: `valid j` stands for
text whose `JSON.parse` yields the value `j` (in particular the output of
`JSON.stringify(j, null, 2)`), `corrupt raw` for text that `JSON.parse`
rejects, and `missing` for an absent file.  `JSON.stringify` (and
`res.json`) drop object fields whose value is `undefined`; such fields
are represented by omitting them from the constructed `Json.obj`, via
`optField`.  I/O faults (disk unavailable, permission denied) are
injected through the `ioFault` flag of the state; the append to the
error log itself is modelled as succeeding (in the source its own
failure is only routed to `console.error` and never propagates).  Every
file-system primitive records an event in the `trace` field of the
state, so which store operations were attempted, and in which order, is
observable in the theorems.
-/

/-- A JSON value as produced by `JSON.parse` / consumed by
`JSON.stringify` (object fields keep their textual order; `undefined`
never occurs inside a parsed value). -/
inductive Json where
  | null
  | bool (b : Bool)
  | num (n : Int)
  | str (s : String)
  | arr (elems : List Json)
  | obj (fields : List (String × Json))

/-- JavaScript truthiness of a defined value. -/
def truthy : Json → Bool
  | .null => false
  | .bool b => b
  | .num n => n != 0
  | .str s => s != ""
  | .arr _ => true
  | .obj _ => true

/-- JavaScript truthiness where `none` stands for `undefined`. -/
def truthyOpt : Option Json → Bool
  | none => false
  | some v => truthy v

/-- First-match lookup in an object field list (JS objects keep one entry
per key; parsed objects never repeat keys). -/
def lookupField : List (String × Json) → String → Option Json
  | [], _ => none
  | (k, v) :: rest, key => if k = key then some v else lookupField rest key

/-- JS member access `base[key]` where it cannot throw: `undefined`
(`none`) on anything that is not an object with that key.  Access on
`null` throws in JS and is treated separately at each call site where the
base can be `null`. -/
def jsField : Json → String → Option Json
  | .obj fields, key => lookupField fields key
  | _, _ => none

/-- Update-or-append of an object field (JS assignment keeps the position
of an existing key and appends a new one). -/
def setField : List (String × Json) → String → Json → List (String × Json)
  | [], key, v => [(key, v)]
  | (k, w) :: rest, key, v =>
    if k = key then (k, v) :: rest else (k, w) :: setField rest key v

/-- JS property assignment `base[key] = v` as observable through JSON
serialization: it updates objects, is a silent no-op on non-null
primitives (non-strict mode), and on arrays creates an expando property
that `JSON.stringify` does not serialize.  Assignment on `null` throws
and is handled at the call sites. -/
def jsAssign (base : Json) (key : String) (v : Json) : Json :=
  match base with
  | .obj fields => .obj (setField fields key v)
  | other => other

/-- JS `base[key].push(v)`: succeeds only when `base` is an object whose
field `key` holds an array; `none` models the TypeError thrown otherwise
(including member access on `null`). -/
def jsPushField (base : Json) (key : String) (v : Json) : Option Json :=
  match base with
  | .obj fields =>
    match lookupField fields key with
    | some (.arr l) => some (.obj (setField fields key (.arr (l ++ [v]))))
    | _ => none
  | _ => none

/-- Content of one file on disk, abstracted at the granularity the
servers observe: absent, text rejected by `JSON.parse`, or text whose
parse yields a `Json` value. -/
inductive DiskContent where
  | missing
  | corrupt (raw : String)
  | valid (j : Json)

/-- `JSON.parse` on file text: `valid j` parses to `j`, `corrupt` text
throws a SyntaxError (`none` here; `missing` never reaches the parser
because the read fails first). -/
def jsonParse : DiskContent → Option Json
  | .valid j => some j
  | _ => none

/-- Object-literal field whose value may be `undefined`: the field is
omitted from the serialized object when the value is absent. -/
def optField (key : String) : Option Json → List (String × Json)
  | none => []
  | some v => [(key, v)]

/-- An HTTP response as the handlers produce it: a status code and the
JSON body passed to `res.json` (`none` when `res.json` receives
`undefined`). -/
structure HttpResp where
  status : Nat
  body : Option Json


namespace Srv

/-- The two document files of `server.js` (`DATA_FILE = storage.json`,
`REQUESTS_FILE = requests.json`). -/
inductive FileName where
  | dataF
  | requestsF
  deriving DecidableEq

/-- One attempted file-system operation, recorded in program order.
`copyEv f` is the copy of `f` to its `.backup` sibling, `unlinkEv f` the
removal of that sibling, `appendEv` the append to `logs/error.log`. -/
inductive FsEv where
  | readEv (f : FileName)
  | writeEv (f : FileName)
  | copyEv (f : FileName)
  | unlinkEv (f : FileName)
  | appendEv
  deriving DecidableEq

/-- The world visible to `server.js`: the two document files with their
backup siblings, the error log, the console, the trace of attempted file
operations, and a fault flag injecting I/O failure (disk unavailable or
permission denied) into every document-file primitive. -/
structure FsState where
  dataFile : DiskContent
  dataBackup : DiskContent
  requestsFile : DiskContent
  requestsBackup : DiskContent
  errorLog : List String
  consoleLog : List String
  trace : List FsEv
  ioFault : Bool

def getFile : FileName → FsState → DiskContent
  | .dataF, st => st.dataFile
  | .requestsF, st => st.requestsFile

def setFile : FileName → DiskContent → FsState → FsState
  | .dataF, c, st => { st with dataFile := c }
  | .requestsF, c, st => { st with requestsFile := c }

def getBackup : FileName → FsState → DiskContent
  | .dataF, st => st.dataBackup
  | .requestsF, st => st.requestsBackup

def setBackup : FileName → DiskContent → FsState → FsState
  | .dataF, c, st => { st with dataBackup := c }
  | .requestsF, c, st => { st with requestsBackup := c }

def tr (e : FsEv) (st : FsState) : FsState := { st with trace := st.trace ++ [e] }

def consoleOut (msg : String) (st : FsState) : FsState :=
  { st with consoleLog := st.consoleLog ++ [msg] }

/-- Errors raised by the file-system primitives: a missing file, or the
injected fault. -/
inductive IOErr where
  | enoent
  | faulted
  deriving DecidableEq

/-- `fs.readFile(filename, 'utf8')`. -/
def fsReadFile (fn : FileName) (st : FsState) : Except IOErr DiskContent × FsState :=
  let st1 := tr (.readEv fn) st
  if st.ioFault then (.error .faulted, st1)
  else match getFile fn st with
    | .missing => (.error .enoent, st1)
    | c => (.ok c, st1)

/-- `fs.writeFile(filename, JSON.stringify(j, null, 2))`. -/
def fsWriteFile (fn : FileName) (j : Json) (st : FsState) : Except IOErr Unit × FsState :=
  let st1 := tr (.writeEv fn) st
  if st.ioFault then (.error .faulted, st1)
  else (.ok (), setFile fn (.valid j) st1)

/-- `fs.copyFile(filename, filename + '.backup')`. -/
def fsCopyToBackup (fn : FileName) (st : FsState) : Except IOErr Unit × FsState :=
  let st1 := tr (.copyEv fn) st
  if st.ioFault then (.error .faulted, st1)
  else match getFile fn st with
    | .missing => (.error .enoent, st1)
    | c => (.ok (), setBackup fn c st1)

/-- `fs.unlink(filename + '.backup')`. -/
def fsUnlinkBackup (fn : FileName) (st : FsState) : Except IOErr Unit × FsState :=
  let st1 := tr (.unlinkEv fn) st
  if st.ioFault then (.error .faulted, st1)
  else match getBackup fn st with
    | .missing => (.error .enoent, st1)
    | _ => (.ok (), setBackup fn .missing st1)

/-- `fs.appendFile(LOG_DIR/error.log, entry).catch(console.error)`: the
log directory is writable in the modelled fault scenarios, so the append
itself succeeds. -/
def appendErrorLog (entry : String) (st : FsState) : FsState :=
  { tr .appendEv st with errorLog := st.errorLog ++ [entry] }

def errEntry : IOErr → String
  | .enoent => "ENOENT"
  | .faulted => "EIO"

/-- `safeFileOperation` (`server.js` lines 60-78): run the operation; on
failure append a JSON error entry to `error.log` and rethrow. -/
def safeFileOperation {α : Type} (op : FsState → Except IOErr α × FsState) (st : FsState) :
    Except IOErr α × FsState :=
  match op st with
  | (.ok a, st1) => (.ok a, st1)
  | (.error e, st1) => (.error e, appendErrorLog (errEntry e) st1)

/-- `initialData.storage` (`server.js` line 22). -/
def initialStorage : Json := .obj [("items", .arr [])]

/-- `initialData.requests` (`server.js` line 23). -/
def initialRequests : Json := .obj [("requests", .arr [])]

def keyOf : FileName → String
  | .dataF => "items"
  | .requestsF => "requests"

def initialFor : FileName → Json
  | .dataF => initialStorage
  | .requestsF => initialRequests

def nameOf : FileName → String
  | .dataF => "storage.json"
  | .requestsF => "requests.json"

/-- The validation step inside `readData` (`server.js` lines 86-91): on
`null` the property access throws (the surrounding catch handles it;
`none` here); otherwise a missing or falsy top-level key is replaced by
`[]` via JS assignment (a serialization-invisible no-op on non-object
values).  A truthy value under the key is kept unexamined. -/
def validateDoc (fn : FileName) (p : Json) : Option Json :=
  match p with
  | .null => none
  | p =>
    if truthyOpt (jsField p (keyOf fn)) then some p
    else some (jsAssign p (keyOf fn) (.arr []))

/-- `writeData` (`server.js` lines 104-124): best-effort backup copy
(failure only warned), overwrite with the serialized document, then
best-effort backup removal (failure only warned), all inside
`safeFileOperation`. -/
def writeData (fn : FileName) (d : Json) (st : FsState) : Except IOErr Unit × FsState :=
  safeFileOperation (fun st0 =>
    let s1 := match fsCopyToBackup fn st0 with
      | (.ok _, s) => s
      | (.error _, s) => consoleOut ("Could not create backup of " ++ nameOf fn) s
    match fsWriteFile fn d s1 with
    | (.error e, s2) => (.error e, s2)
    | (.ok _, s2) =>
      let s3 := match fsUnlinkBackup fn s2 with
        | (.ok _, s) => s
        | (.error _, s) => consoleOut ("Could not remove backup file " ++ nameOf fn ++ ".backup") s
      (.ok (), s3)) st

/-- The catch block of `readData` (`server.js` lines 93-99): log to the
console, persist the initial state for the file via `writeData`, and
return it (a failure of that nested write propagates). -/
def resetTo (fn : FileName) (s : FsState) : Except IOErr Json × FsState :=
  let s1 := consoleOut ("Invalid JSON in " ++ nameOf fn ++ ", resetting to initial state") s
  match writeData fn (initialFor fn) s1 with
  | (.ok _, s2) => (.ok (initialFor fn), s2)
  | (.error e, s2) => (.error e, s2)

/-- `readData` (`server.js` lines 81-101): read the file, parse, validate
the top-level key; an exception from parsing (or from validating `null`)
is caught by resetting to the initial state.  All wrapped in
`safeFileOperation`, so an I/O failure is logged and rethrown. -/
def readData (fn : FileName) (st : FsState) : Except IOErr Json × FsState :=
  safeFileOperation (fun st0 =>
    match fsReadFile fn st0 with
    | (.error e, s1) => (.error e, s1)
    | (.ok content, s1) =>
      match jsonParse content with
      | some p =>
        match validateDoc fn p with
        | some d => (.ok d, s1)
        | none => resetTo fn s1
      | none => resetTo fn s1) st

/-- `initializeFileSystem` (`server.js` lines 27-57), non-faulted
start-up path: each document file is seeded with its initial shape when
`fs.access` fails (absent file); an existing file, corrupt or not, is
left untouched.  Directory creation and the fatal `process.exit` are
outside the model. -/
def initializeFile (fn : FileName) (st : FsState) : FsState :=
  match getFile fn st with
  | .missing => setFile fn (.valid (initialFor fn)) st
  | _ => st

def initializeFileSystem (st : FsState) : FsState :=
  initializeFile .requestsF (initializeFile .dataF st)

def err500 (msg : String) : HttpResp :=
  { status := 500, body := some (.obj [("error", .str msg)]) }

/-- `GET /items` (`server.js` lines 159-166). -/
def getItems (st : FsState) : HttpResp × FsState :=
  match readData .dataF st with
  | (.ok d, s1) => ({ status := 200, body := jsField d "items" }, s1)
  | (.error _, s1) => (err500 "Failed to retrieve items", s1)

/-- `GET /requests` (`server.js` lines 169-176). -/
def getRequests (st : FsState) : HttpResp × FsState :=
  match readData .requestsF st with
  | (.ok d, s1) => ({ status := 200, body := jsField d "requests" }, s1)
  | (.error _, s1) => (err500 "Failed to retrieve requests", s1)

/-- The item constructed by `POST /items` (`server.js` lines 182-187):
`content` comes straight from the request body with no validation, so an
absent `content` is `undefined` and the field is dropped by JSON
serialization. -/
def mkNewItem (body : Json) (now : Int) (ts : String) : Json :=
  .obj ([("id", .num now)] ++ optField "content" (jsField body "content") ++
        [("createdBy", .str "anonymous_user"), ("createdAt", .str ts)])

/-- `POST /items` (`server.js` lines 179-194): read, push the new item,
write back, answer 201 with the item; any thrown error answers 500.
`now` is the value of `Date.now()` and `ts` the ISO timestamp taken
during the handler. -/
def postItems (body : Json) (now : Int) (ts : String) (st : FsState) : HttpResp × FsState :=
  match readData .dataF st with
  | (.error _, s1) => (err500 "Failed to create item", s1)
  | (.ok d, s1) =>
    let newItem := mkNewItem body now ts
    match jsPushField d "items" newItem with
    | none => (err500 "Failed to create item", s1)
    | some d2 =>
      match writeData .dataF d2 s1 with
      | (.ok _, s2) => ({ status := 201, body := some newItem }, s2)
      | (.error _, s2) => (err500 "Failed to create item", s2)

end Srv

namespace P1

/-- Trace events of the `part_001` server, which has a single document
file (`STORAGE_FILE = storage.json`) with its `.backup` sibling and the
error log. -/
inductive FsEv where
  | readEv
  | writeEv
  | copyEv
  | unlinkEv
  | appendEv
  deriving DecidableEq

/-- The world visible to `part_001`. -/
structure St where
  storageFile : DiskContent
  storageBackup : DiskContent
  errorLog : List String
  consoleLog : List String
  trace : List FsEv
  ioFault : Bool

def tr (e : FsEv) (st : St) : St := { st with trace := st.trace ++ [e] }

def consoleOut (msg : String) (st : St) : St :=
  { st with consoleLog := st.consoleLog ++ [msg] }

/-- `fs.readFile(STORAGE_FILE, 'utf8')`. -/
def fsReadFile (st : St) : Except Srv.IOErr DiskContent × St :=
  let st1 := tr .readEv st
  if st.ioFault then (.error .faulted, st1)
  else match st.storageFile with
    | .missing => (.error .enoent, st1)
    | c => (.ok c, st1)

/-- `fs.writeFile(STORAGE_FILE, JSON.stringify(data, null, 2))`. -/
def fsWriteFile (j : Json) (st : St) : Except Srv.IOErr Unit × St :=
  let st1 := tr .writeEv st
  if st.ioFault then (.error .faulted, st1)
  else (.ok (), { st1 with storageFile := .valid j })

/-- `fs.copyFile(STORAGE_FILE, STORAGE_FILE + '.backup')`. -/
def fsCopyToBackup (st : St) : Except Srv.IOErr Unit × St :=
  let st1 := tr .copyEv st
  if st.ioFault then (.error .faulted, st1)
  else match st.storageFile with
    | .missing => (.error .enoent, st1)
    | c => (.ok (), { st1 with storageBackup := c })

/-- `fs.unlink(STORAGE_FILE + '.backup')`. -/
def fsUnlinkBackup (st : St) : Except Srv.IOErr Unit × St :=
  let st1 := tr .unlinkEv st
  if st.ioFault then (.error .faulted, st1)
  else match st.storageBackup with
    | .missing => (.error .enoent, st1)
    | _ => (.ok (), { st1 with storageBackup := .missing })

/-- `logError` (`part_001` lines 66-78): appends one entry to
`logs/error.log`; its own failure is only routed to `console.error`. -/
def logError (entry : String) (st : St) : St :=
  { tr .appendEv st with errorLog := st.errorLog ++ [entry] }

/-- `initialStorage` (`part_001` lines 17-19). -/
def initialStorage : Json := .obj [("conversations", .arr [])]

/-- `readStorage` (`part_001` lines 40-48): any failure of the read or of
the parse is caught, logged to the console, and answered with
`initialStorage`; the file is not rewritten and no error ever reaches
the caller. -/
def readStorage (st : St) : Json × St :=
  match fsReadFile st with
  | (.error _, s1) => (initialStorage, consoleOut "Error reading storage" s1)
  | (.ok c, s1) =>
    match jsonParse c with
    | some j => (j, s1)
    | none => (initialStorage, consoleOut "Error reading storage" s1)

/-- `writeStorage` (`part_001` lines 50-63): backup copy, overwrite,
backup removal, all inside a single try; any failure (including of the
backup copy or of the backup removal) is logged to the console and
rethrown. -/
def writeStorage (d : Json) (st : St) : Except Srv.IOErr Unit × St :=
  match fsCopyToBackup st with
  | (.error e, s1) => (.error e, consoleOut "Error writing storage" s1)
  | (.ok _, s1) =>
    match fsWriteFile d s1 with
    | (.error e, s2) => (.error e, consoleOut "Error writing storage" s2)
    | (.ok _, s2) =>
      match fsUnlinkBackup s2 with
      | (.error e, s3) => (.error e, consoleOut "Error writing storage" s3)
      | (.ok _, s3) => (.ok (), s3)

/-- `initializeFiles` (`part_001` lines 22-37), non-faulted start-up
path: seed `STORAGE_FILE` with `initialStorage` when absent, leave an
existing file untouched. -/
def initializeFiles (st : St) : St :=
  match st.storageFile with
  | .missing => { st with storageFile := .valid initialStorage }
  | _ => st

/-- The resolved user of a new conversation (`part_001` line 93:
`user?.email || ANONYMOUS_USER`). -/
def resolveUser (userOpt : Option Json) : Json :=
  match userOpt.bind (fun u => jsField u "email") with
  | some e => if truthy e then e else .str "anonymous"
  | none => .str "anonymous"

/-- The conversation record built by `POST /items` (`part_001` lines
90-98): the stored content is the two-field projection of the posted
content (`content.message` and `content.response`), with `undefined`
fields dropped by serialization. -/
def mkConversation (content : Json) (userOpt : Option Json) (now : Int) (ts : String) : Json :=
  .obj [("id", .num now), ("timestamp", .str ts),
        ("user", resolveUser userOpt),
        ("content", .obj (optField "message" (jsField content "message") ++
                          optField "response" (jsField content "response")))]

def err500 (msg : String) : HttpResp :=
  { status := 500, body := some (.obj [("error", .str msg)]) }

/-- `POST /items` (`part_001` lines 81-108): read the storage, reject a
falsy `content` with 400 before building anything, otherwise push the new
conversation and write the document back; a thrown error is passed to
`logError` and answered with 500. -/
def postItems (body : Json) (now : Int) (ts : String) (st : St) : HttpResp × St :=
  let r := readStorage st
  if truthyOpt (jsField body "content") = false then
    ({ status := 400, body := some (.obj [("error", .str "Content is required")]) }, r.2)
  else
    let conv := mkConversation ((jsField body "content").getD .null) (jsField body "user") now ts
    match jsPushField r.1 "conversations" conv with
    | none => (err500 "Failed to store conversation", logError "TypeError" r.2)
    | some d2 =>
      match writeStorage d2 r.2 with
      | (.ok _, s2) => ({ status := 201, body := some conv }, s2)
      | (.error _, s2) => (err500 "Failed to store conversation", logError "write failed" s2)

/-- `GET /items` (`part_001` lines 110-118): `readStorage` never throws,
so the only throwing step is the member access `storage.conversations`
on a `null` storage value. -/
def getItems (st : St) : HttpResp × St :=
  let r := readStorage st
  match r.1 with
  | .null => (err500 "Failed to retrieve conversations", logError "TypeError" r.2)
  | s => ({ status := 200, body := jsField s "conversations" }, r.2)

/-- The filter callback of `GET /items/user/:email` (`part_001` lines
124-126): strict equality of `conv.user` with the email string, which
holds exactly when `conv.user` is that string.  The callback throws on a
`null` element (member access on `null`), modelled by `none` for the
whole filter. -/
def userMatches (email : String) (conv : Json) : Bool :=
  match jsField conv "user" with
  | some (.str u) => u == email
  | _ => false

def isNull : Json → Bool
  | .null => true
  | _ => false

def filterConvs (l : List Json) (email : String) : Option (List Json) :=
  if l.any isNull then none
  else some (l.filter (userMatches email))

/-- `GET /items/user/:email` (`part_001` lines 121-132): filter the
conversation sequence by the embedded user email; a TypeError (storage
not holding a conversations array, or a `null` element) is logged and
answered with 500. -/
def getUserItems (email : String) (st : St) : HttpResp × St :=
  let r := readStorage st
  match r.1 with
  | .obj fields =>
    match lookupField fields "conversations" with
    | some (.arr l) =>
      match filterConvs l email with
      | some matches0 => ({ status := 200, body := some (.arr matches0) }, r.2)
      | none => (err500 "Failed to retrieve user conversations", logError "TypeError" r.2)
    | _ => (err500 "Failed to retrieve user conversations", logError "TypeError" r.2)
  | _ => (err500 "Failed to retrieve user conversations", logError "TypeError" r.2)

end P1

namespace P0

/-- An inbound HTTP request as the `part_000` middleware sees it: method,
path, parsed JSON body (an object or array under `express.json`), and the
two headers the audit record copies. -/
structure Request where
  method : String
  path : String
  body : Json
  userAgent : Option String
  contentType : Option String

/-- `anonymous` branch of `getUserInfo` (`part_000` lines 33-37). -/
def anonInfo (ts : String) : Json :=
  .obj [("email", .str "anonymous_user"), ("name", .str "Anonymous"), ("timestamp", .str ts)]

/-- `getUserInfo` (`part_000` lines 25-38): a truthy `body.user` with a
truthy `email` yields the supplied identity (name defaulting to
"Unknown" when falsy), anything else the anonymous identity. -/
def getUserInfo (body : Json) (ts : String) : Json :=
  match jsField body "user" with
  | some u =>
    if truthy u then
      match jsField u "email" with
      | some e =>
        if truthy e then
          .obj [("email", e),
                ("name", match jsField u "name" with
                         | some n => if truthy n then n else .str "Unknown"
                         | none => .str "Unknown"),
                ("timestamp", .str ts)]
        else anonInfo ts
      | none => anonInfo ts
    else anonInfo ts
  | none => anonInfo ts

/-- The request-audit record pushed by `logRequest` (`part_000` lines
45-56). -/
def mkAuditRecord (req : Request) (userInfo : Json) (now : Int) (ts : String) : Json :=
  .obj [("id", .num now), ("timestamp", .str ts), ("method", .str req.method),
        ("path", .str req.path), ("user", userInfo),
        ("body", if req.method = "POST" then req.body else .null),
        ("headers", .obj (optField "userAgent" ((req.userAgent).map .str) ++
                          optField "contentType" ((req.contentType).map .str)))]

/-- `logRequest` middleware (`part_000` lines 40-67): read the requests
document, append one audit record, write the document back, attach the
resolved user to the request and call `next()`; any thrown error is
logged to the console and forwarded to the error middleware
(`next(error)`, the `none` result).  `readData`, `writeData` and
`safeFileOperation` of `part_000` (lines 97-154) are textually identical
to the ones of `src/server.js` and are shared from `Srv`. -/
def logRequest (req : Request) (now : Int) (ts : String) (st : Srv.FsState) :
    Option Json × Srv.FsState :=
  match Srv.readData .requestsF st with
  | (.error _, s1) => (none, Srv.consoleOut "Error in request logging" s1)
  | (.ok d, s1) =>
    let userInfo := getUserInfo req.body ts
    match jsPushField d "requests" (mkAuditRecord req userInfo now ts) with
    | none => (none, Srv.consoleOut "Error in request logging" s1)
    | some d2 =>
      match Srv.writeData .requestsF d2 s1 with
      | (.error _, s2) => (none, Srv.consoleOut "Error in request logging" s2)
      | (.ok _, s2) => (some userInfo, s2)

/-- The middleware chain of `part_000`, in which `app.use(logRequest)`
appears twice (lines 69 and 158), both registrations preceding every
route: a request that completes the chain runs `logRequest` twice, each
invocation drawing its own `Date.now()` and timestamp; an error in the
first invocation skips the second.  Returns the resolved user attached
by the (last) successful invocation. -/
def runMiddlewares (req : Request) (now1 : Int) (ts1 : String) (now2 : Int) (ts2 : String)
    (st : Srv.FsState) : Option Json × Srv.FsState :=
  match logRequest req now1 ts1 st with
  | (none, s1) => (none, s1)
  | (some _, s1) => logRequest req now2 ts2 s1

/-- The item constructed by `POST /items` (`part_000` lines 186-194):
`content` is taken from the body with no validation (`undefined` dropped
by serialization), `createdBy` is the email and name of the resolved
user. -/
def mkNewItem (body : Json) (userInfo : Json) (now : Int) (ts : String) : Json :=
  .obj ([("id", .num now)] ++ optField "content" (jsField body "content") ++
        [("createdBy", .obj (optField "email" (jsField userInfo "email") ++
                             optField "name" (jsField userInfo "name"))),
         ("createdAt", .str ts)])

/-- `POST /items` (`part_000` lines 181-202): read, push the new item,
write back, answer 201 with the item; any thrown error answers 500. -/
def postItems (body : Json) (userInfo : Json) (now : Int) (ts : String) (st : Srv.FsState) :
    HttpResp × Srv.FsState :=
  match Srv.readData .dataF st with
  | (.error _, s1) => (Srv.err500 "Failed to create item", s1)
  | (.ok d, s1) =>
    let newItem := mkNewItem body userInfo now ts
    match jsPushField d "items" newItem with
    | none => (Srv.err500 "Failed to create item", s1)
    | some d2 =>
      match Srv.writeData .dataF d2 s1 with
      | (.ok _, s2) => ({ status := 201, body := some newItem }, s2)
      | (.error _, s2) => (Srv.err500 "Failed to create item", s2)

end P0

namespace P0

/-- The audit record of one `logRequest` invocation, with the user it
resolves for that invocation. -/
def auditOf (req : Request) (now : Int) (ts : String) : Json :=
  mkAuditRecord req (getUserInfo req.body ts) now ts

end P0

/-- A freshly initialized `server.js` world: both documents hold their
canonical empty shape. -/
def emptySrvSt : Srv.FsState :=
  { dataFile := .valid Srv.initialStorage, dataBackup := .missing,
    requestsFile := .valid Srv.initialRequests, requestsBackup := .missing,
    errorLog := [], consoleLog := [], trace := [], ioFault := false }

/-- A freshly initialized `part_001` world. -/
def emptyP1St : P1.St :=
  { storageFile := .valid P1.initialStorage, storageBackup := .missing,
    errorLog := [], consoleLog := [], trace := [], ioFault := false }

/-- A `part_001` world whose storage file holds unparseable bytes. -/
def c1CexSt : P1.St :=
  { storageFile := .corrupt "busted", storageBackup := .missing,
    errorLog := [], consoleLog := [], trace := [], ioFault := false }

/-- A `server.js` world whose data file holds unparseable bytes. -/
def c1SrvCexSt : Srv.FsState :=
  { dataFile := .corrupt "busted", dataBackup := .missing,
    requestsFile := .valid Srv.initialRequests, requestsBackup := .missing,
    errorLog := [], consoleLog := [], trace := [], ioFault := false }

/-- A `part_001` world before its first write: no storage file yet. -/
def c2CexSt : P1.St :=
  { storageFile := .missing, storageBackup := .missing,
    errorLog := [], consoleLog := [], trace := [], ioFault := false }

/-- A `server.js` world before its first write to the data file. -/
def c2SrvMissingSt : Srv.FsState :=
  { dataFile := .missing, dataBackup := .missing,
    requestsFile := .valid Srv.initialRequests, requestsBackup := .missing,
    errorLog := [], consoleLog := [], trace := [], ioFault := false }

/-- A `server.js` world whose data file parses but holds the truthy
non-sequence value `5` under the `items` key. -/
def c4CexSt : Srv.FsState :=
  { dataFile := .valid (.obj [("items", .num 5)]), dataBackup := .missing,
    requestsFile := .valid Srv.initialRequests, requestsBackup := .missing,
    errorLog := [], consoleLog := [], trace := [], ioFault := false }

/-- A `part_001` world whose storage file parses but has no
`conversations` key at all. -/
def c4P1CexSt : P1.St :=
  { storageFile := .valid (.obj [("wrong", .num 1)]), storageBackup := .missing,
    errorLog := [], consoleLog := [], trace := [], ioFault := false }

def c7Conv1 : Json := .obj [("id", .num 1), ("user", .str "a@x"), ("content", .obj [])]

def c7Conv2 : Json := .obj [("id", .num 2), ("user", .str "b@x"), ("content", .obj [])]

/-- A `part_001` world holding two conversations by different users. -/
def c7St : P1.St :=
  { storageFile := .valid (.obj [("conversations", .arr [c7Conv1, c7Conv2])]),
    storageBackup := .missing, errorLog := [], consoleLog := [], trace := [],
    ioFault := false }

/-- A `part_001` world with a stored record but an unavailable disk. -/
def c8CexSt : P1.St :=
  { storageFile := .valid (.obj [("conversations", .arr [c7Conv1])]),
    storageBackup := .missing, errorLog := [], consoleLog := [], trace := [],
    ioFault := true }

/-- A `server.js` world with an unavailable disk. -/
def c8SrvSt : Srv.FsState :=
  { dataFile := .valid Srv.initialStorage, dataBackup := .missing,
    requestsFile := .valid Srv.initialRequests, requestsBackup := .missing,
    errorLog := [], consoleLog := [], trace := [], ioFault := true }

/-- A concrete inbound request for the part_000 middleware chain. -/
def c9Req : P0.Request :=
  { method := "GET", path := "/items", body := Json.obj [],
    userAgent := some "curl", contentType := none }

/-- A Record created in millisecond 5 (its id is the `Date.now()` value). -/
def c6Item : Json :=
  .obj [("id", .num 5), ("content", .str "old"),
        ("createdBy", .str "anonymous_user"), ("createdAt", .str "T0")]

/-- A `server.js` world already holding `c6Item`. -/
def c6CexSt : Srv.FsState :=
  { dataFile := .valid (.obj [("items", .arr [c6Item])]), dataBackup := .missing,
    requestsFile := .valid Srv.initialRequests, requestsBackup := .missing,
    errorLog := [], consoleLog := [], trace := [], ioFault := false }



theorem lookup_set_self (fields : List (String × Json)) (key : String) (v : Json) :
    lookupField (setField fields key v) key = some v := by
  induction fields with
  | nil => simp [setField, lookupField]
  | cons kv rest ih =>
    obtain ⟨k, w⟩ := kv
    by_cases hk : k = key <;> simp [setField, lookupField, hk, ih]

theorem set_set (fields : List (String × Json)) (key : String) (v w : Json) :
    setField (setField fields key v) key w = setField fields key w := by
  induction fields with
  | nil => simp [setField]
  | cons kv rest ih =>
    obtain ⟨k, u⟩ := kv
    by_cases hk : k = key <;> simp [setField, hk, ih]

namespace Srv

theorem writeData_run (fn : FileName) (d : Json) (st : FsState) (h : st.ioFault = false) :
    (writeData fn d st).1 = Except.ok () ∧
    getFile fn (writeData fn d st).2 = DiskContent.valid d ∧
    getBackup fn (writeData fn d st).2 = DiskContent.missing ∧
    (writeData fn d st).2.ioFault = false ∧
    (writeData fn d st).2.errorLog = st.errorLog ∧
    (writeData fn d st).2.trace =
      st.trace ++ [FsEv.copyEv fn, FsEv.writeEv fn, FsEv.unlinkEv fn] := by
  obtain ⟨df, db, rf, rb, el, cl, tc, io⟩ := st
  have h' : io = false := h
  subst h'
  cases fn
  · cases df <;> cases db <;>
      simp [writeData, safeFileOperation, fsCopyToBackup, fsWriteFile, fsUnlinkBackup,
            tr, consoleOut, getFile, setFile, getBackup, setBackup]
  · cases rf <;> cases rb <;>
      simp [writeData, safeFileOperation, fsCopyToBackup, fsWriteFile, fsUnlinkBackup,
            tr, consoleOut, getFile, setFile, getBackup, setBackup]

end Srv

namespace Srv

theorem readData_valid (fn : FileName) (p : Json) (st : FsState) (h : st.ioFault = false)
    (hf : getFile fn st = DiskContent.valid p)
    (hk : truthyOpt (jsField p (keyOf fn)) = true) :
    readData fn st = (Except.ok p, tr (FsEv.readEv fn) st) := by
  obtain ⟨df, db, rf, rb, el, cl, tc, io⟩ := st
  have h' : io = false := h
  subst h'
  cases fn
  · have hdf : df = DiskContent.valid p := hf
    subst hdf
    cases p <;>
      simp_all [readData, safeFileOperation, fsReadFile, jsonParse, validateDoc,
                tr, getFile, truthyOpt, jsField, keyOf]
  · have hrf : rf = DiskContent.valid p := hf
    subst hrf
    cases p <;>
      simp_all [readData, safeFileOperation, fsReadFile, jsonParse, validateDoc,
                tr, getFile, truthyOpt, jsField, keyOf]

theorem readData_corrupt (fn : FileName) (raw : String) (st : FsState) (h : st.ioFault = false)
    (hf : getFile fn st = DiskContent.corrupt raw) :
    (readData fn st).1 = Except.ok (initialFor fn) ∧
    getFile fn (readData fn st).2 = DiskContent.valid (initialFor fn) ∧
    getBackup fn (readData fn st).2 = DiskContent.missing ∧
    (readData fn st).2.ioFault = false ∧
    (readData fn st).2.errorLog = st.errorLog ∧
    (readData fn st).2.consoleLog =
      st.consoleLog ++ ["Invalid JSON in " ++ nameOf fn ++ ", resetting to initial state"] ∧
    (readData fn st).2.trace =
      st.trace ++ [FsEv.readEv fn, FsEv.copyEv fn, FsEv.writeEv fn, FsEv.unlinkEv fn] := by
  obtain ⟨df, db, rf, rb, el, cl, tc, io⟩ := st
  have h' : io = false := h
  subst h'
  cases fn
  · have hdf : df = DiskContent.corrupt raw := hf
    subst hdf
    simp [readData, safeFileOperation, fsReadFile, jsonParse, resetTo, writeData,
          fsCopyToBackup, fsWriteFile, fsUnlinkBackup, tr, consoleOut, getFile, setFile,
          getBackup, setBackup, nameOf, initialFor]
  · have hrf : rf = DiskContent.corrupt raw := hf
    subst hrf
    simp [readData, safeFileOperation, fsReadFile, jsonParse, resetTo, writeData,
          fsCopyToBackup, fsWriteFile, fsUnlinkBackup, tr, consoleOut, getFile, setFile,
          getBackup, setBackup, nameOf, initialFor]

theorem readData_fault (fn : FileName) (st : FsState) (h : st.ioFault = true) :
    readData fn st =
      (Except.error IOErr.faulted,
        appendErrorLog (errEntry IOErr.faulted) (tr (FsEv.readEv fn) st)) := by
  obtain ⟨df, db, rf, rb, el, cl, tc, io⟩ := st
  have h' : io = true := h
  subst h'
  cases fn <;>
    simp [readData, safeFileOperation, fsReadFile, appendErrorLog, tr, errEntry]

theorem writeData_fault (fn : FileName) (d : Json) (st : FsState) (h : st.ioFault = true) :
    (writeData fn d st).1 = Except.error IOErr.faulted ∧
    getFile fn (writeData fn d st).2 = getFile fn st ∧
    (writeData fn d st).2.errorLog = st.errorLog ++ [errEntry IOErr.faulted] ∧
    (writeData fn d st).2.consoleLog =
      st.consoleLog ++ ["Could not create backup of " ++ nameOf fn] ∧
    (writeData fn d st).2.trace =
      st.trace ++ [FsEv.copyEv fn, FsEv.writeEv fn, FsEv.appendEv] := by
  obtain ⟨df, db, rf, rb, el, cl, tc, io⟩ := st
  have h' : io = true := h
  subst h'
  cases fn <;>
    simp [writeData, safeFileOperation, fsCopyToBackup, fsWriteFile, fsUnlinkBackup,
          appendErrorLog, errEntry, tr, consoleOut, getFile, setFile, getBackup, setBackup]

theorem writeData_missing_warns (fn : FileName) (d : Json) (st : FsState)
    (h : st.ioFault = false) (hf : getFile fn st = DiskContent.missing)
    (hb : getBackup fn st = DiskContent.missing) :
    (writeData fn d st).1 = Except.ok () ∧
    getFile fn (writeData fn d st).2 = DiskContent.valid d ∧
    (writeData fn d st).2.consoleLog =
      st.consoleLog ++ ["Could not create backup of " ++ nameOf fn,
                        "Could not remove backup file " ++ nameOf fn ++ ".backup"] := by
  obtain ⟨df, db, rf, rb, el, cl, tc, io⟩ := st
  have h' : io = false := h
  subst h'
  cases fn
  · have hdf : df = DiskContent.missing := hf
    have hdb : db = DiskContent.missing := hb
    subst hdf; subst hdb
    simp [writeData, safeFileOperation, fsCopyToBackup, fsWriteFile, fsUnlinkBackup,
          tr, consoleOut, getFile, setFile, getBackup, setBackup]
  · have hrf : rf = DiskContent.missing := hf
    have hrb : rb = DiskContent.missing := hb
    subst hrf; subst hrb
    simp [writeData, safeFileOperation, fsCopyToBackup, fsWriteFile, fsUnlinkBackup,
          tr, consoleOut, getFile, setFile, getBackup, setBackup]

end Srv

namespace P1

theorem readStorage_effects (st : St) :
    (readStorage st).2.storageFile = st.storageFile ∧
    (readStorage st).2.storageBackup = st.storageBackup ∧
    (readStorage st).2.errorLog = st.errorLog ∧
    (readStorage st).2.ioFault = st.ioFault ∧
    (readStorage st).2.trace = st.trace ++ [FsEv.readEv] := by
  obtain ⟨sf, sb, el, cl, tc, io⟩ := st
  cases io <;> cases sf <;>
    simp [readStorage, fsReadFile, jsonParse, tr, consoleOut]

theorem readStorage_valid (j : Json) (st : St) (h : st.ioFault = false)
    (hf : st.storageFile = DiskContent.valid j) :
    readStorage st = (j, tr FsEv.readEv st) := by
  obtain ⟨sf, sb, el, cl, tc, io⟩ := st
  have h' : io = false := h
  subst h'
  have hsf : sf = DiskContent.valid j := hf
  subst hsf
  simp [readStorage, fsReadFile, jsonParse, tr]

theorem readStorage_corrupt (raw : String) (st : St) (h : st.ioFault = false)
    (hf : st.storageFile = DiskContent.corrupt raw) :
    readStorage st = (initialStorage, consoleOut "Error reading storage" (tr FsEv.readEv st)) := by
  obtain ⟨sf, sb, el, cl, tc, io⟩ := st
  have h' : io = false := h
  subst h'
  have hsf : sf = DiskContent.corrupt raw := hf
  subst hsf
  simp [readStorage, fsReadFile, jsonParse, tr, consoleOut]

theorem readStorage_fault (st : St) (h : st.ioFault = true) :
    readStorage st = (initialStorage, consoleOut "Error reading storage" (tr FsEv.readEv st)) := by
  obtain ⟨sf, sb, el, cl, tc, io⟩ := st
  have h' : io = true := h
  subst h'
  simp [readStorage, fsReadFile, jsonParse, tr, consoleOut]

theorem writeStorage_ok (d : Json) (st : St) (h : st.ioFault = false)
    (hf : st.storageFile ≠ DiskContent.missing) :
    writeStorage d st =
      (Except.ok (), { st with storageFile := DiskContent.valid d,
                               storageBackup := DiskContent.missing,
                               trace := st.trace ++ [FsEv.copyEv, FsEv.writeEv, FsEv.unlinkEv] }) := by
  obtain ⟨sf, sb, el, cl, tc, io⟩ := st
  have h' : io = false := h
  subst h'
  cases sf with
  | missing => exact absurd rfl hf
  | corrupt raw =>
    simp [writeStorage, fsCopyToBackup, fsWriteFile, fsUnlinkBackup, tr, consoleOut]
  | valid j =>
    simp [writeStorage, fsCopyToBackup, fsWriteFile, fsUnlinkBackup, tr, consoleOut]

theorem writeStorage_missing (d : Json) (st : St) (h : st.ioFault = false)
    (hf : st.storageFile = DiskContent.missing) :
    writeStorage d st =
      (Except.error Srv.IOErr.enoent,
        { st with consoleLog := st.consoleLog ++ ["Error writing storage"],
                  trace := st.trace ++ [FsEv.copyEv] }) := by
  obtain ⟨sf, sb, el, cl, tc, io⟩ := st
  have h' : io = false := h
  subst h'
  have hsf : sf = DiskContent.missing := hf
  subst hsf
  simp [writeStorage, fsCopyToBackup, fsWriteFile, fsUnlinkBackup, tr, consoleOut]

theorem writeStorage_fault (d : Json) (st : St) (h : st.ioFault = true) :
    writeStorage d st =
      (Except.error Srv.IOErr.faulted,
        { st with consoleLog := st.consoleLog ++ ["Error writing storage"],
                  trace := st.trace ++ [FsEv.copyEv] }) := by
  obtain ⟨sf, sb, el, cl, tc, io⟩ := st
  have h' : io = true := h
  subst h'
  simp [writeStorage, fsCopyToBackup, fsWriteFile, fsUnlinkBackup, tr, consoleOut]

end P1

/-- C3: `write` followed immediately by `read` on the same document, with
no interleaving writer and no I/O fault, returns a Document deep-equal to
what was written.  A Document in the data model has its top-level key
(`items` resp. `requests`) mapped to a sequence, which is hypothesis
`hd`; `Srv.writeData` persists exactly the serialized document and
`Srv.readData` parses and returns it unchanged, its validation finding
the key truthy. -/
theorem c3_write_then_read_roundtrip (fn : Srv.FileName) (d : Json) (l : List Json)
    (st : Srv.FsState) (h : st.ioFault = false)
    (hd : jsField d (Srv.keyOf fn) = some (Json.arr l)) :
    (Srv.readData fn (Srv.writeData fn d st).2).1 = Except.ok d := by
  obtain ⟨h1, h2, h3, h4, h5, h6⟩ := Srv.writeData_run fn d st h
  rw [Srv.readData_valid fn d _ h4 h2 (by rw [hd]; rfl)]

theorem c3_write_then_read_roundtrip_witness :
    (Srv.readData .dataF
      (Srv.writeData .dataF (Json.obj [("items", Json.arr [Json.str "a"])]) emptySrvSt).2).1
      = Except.ok (Json.obj [("items", Json.arr [Json.str "a"])]) :=
  c3_write_then_read_roundtrip .dataF _ [Json.str "a"] emptySrvSt rfl rfl

/-- C5: a `POST /items` whose body lacks the `content` field
(conversation-oriented variant, `part_001`) is answered 400 with a
descriptive error message, the stored document is untouched (so its
sequence length is unchanged), and the trace records a single file read:
no persistence is attempted. -/
theorem c5_missing_content_400 (body : Json) (now : Int) (ts : String) (st : P1.St)
    (h : jsField body "content" = none) :
    (P1.postItems body now ts st).1.status = 400 ∧
    (P1.postItems body now ts st).1.body =
      some (Json.obj [("error", Json.str "Content is required")]) ∧
    (P1.postItems body now ts st).2.storageFile = st.storageFile ∧
    (P1.postItems body now ts st).2.trace = st.trace ++ [P1.FsEv.readEv] := by
  have hro := P1.readStorage_effects st
  simp [P1.postItems, h, truthyOpt, hro.1, hro.2.2.2.2]

theorem c5_missing_content_400_witness :
    (P1.postItems (Json.obj [("user", Json.str "x")]) 7 "T" emptyP1St).1.status = 400 ∧
    (P1.postItems (Json.obj [("user", Json.str "x")]) 7 "T" emptyP1St).1.body =
      some (Json.obj [("error", Json.str "Content is required")]) ∧
    (P1.postItems (Json.obj [("user", Json.str "x")]) 7 "T" emptyP1St).2.storageFile =
      emptyP1St.storageFile ∧
    (P1.postItems (Json.obj [("user", Json.str "x")]) 7 "T" emptyP1St).2.trace =
      emptyP1St.trace ++ [P1.FsEv.readEv] :=
  c5_missing_content_400 (Json.obj [("user", Json.str "x")]) 7 "T" emptyP1St rfl

/-- C1 counterexample: in `part_001`, the read operation on unparseable
content returns the canonical empty shape but does not persist it — the
file still holds the corrupt bytes afterwards, not valid JSON of the
canonical shape, and the trace shows that no write was even attempted. -/
theorem c1_counterexample :
    (P1.readStorage c1CexSt).1 = P1.initialStorage ∧
    (P1.readStorage c1CexSt).2.storageFile = DiskContent.corrupt "busted" ∧
    (P1.readStorage c1CexSt).2.storageFile ≠ DiskContent.valid P1.initialStorage ∧
    (P1.readStorage c1CexSt).2.trace = [P1.FsEv.readEv] := by
  refine ⟨rfl, rfl, ?_, rfl⟩
  intro hc
  rw [show (P1.readStorage c1CexSt).2.storageFile = DiskContent.corrupt "busted" from rfl] at hc
  exact DiskContent.noConfusion hc

/-- C1 amended: in `server.js`, `readData` on unparseable content logs
the condition, resets to the canonical empty shape, persists it, and
returns it without raising a parse error, and a subsequent `GET /items`
returns the empty sequence with the file left holding valid JSON of the
canonical shape.  In `part_001`, `readStorage` logs and returns the
canonical empty shape — so `GET /items` still returns the empty sequence
and no parse error reaches the caller — but the reset is NOT persisted:
the corrupt file content is left in place. -/
theorem c1_amended (raw : String) :
    (∀ fn (st : Srv.FsState), st.ioFault = false → Srv.getFile fn st = .corrupt raw →
      (Srv.readData fn st).1 = Except.ok (Srv.initialFor fn) ∧
      Srv.getFile fn (Srv.readData fn st).2 = DiskContent.valid (Srv.initialFor fn) ∧
      (Srv.readData fn st).2.consoleLog =
        st.consoleLog ++ ["Invalid JSON in " ++ Srv.nameOf fn ++ ", resetting to initial state"]) ∧
    (∀ st : Srv.FsState, st.ioFault = false → st.dataFile = .corrupt raw →
      (Srv.getItems (Srv.readData .dataF st).2).1.status = 200 ∧
      (Srv.getItems (Srv.readData .dataF st).2).1.body = some (Json.arr []) ∧
      (Srv.getItems (Srv.readData .dataF st).2).2.dataFile =
        DiskContent.valid Srv.initialStorage) ∧
    (∀ st : P1.St, st.ioFault = false → st.storageFile = .corrupt raw →
      (P1.readStorage st).1 = P1.initialStorage ∧
      (P1.readStorage st).2.storageFile = DiskContent.corrupt raw ∧
      (P1.getItems st).1.status = 200 ∧
      (P1.getItems st).1.body = some (Json.arr []) ∧
      (P1.getItems st).2.storageFile = DiskContent.corrupt raw) := by
  refine ⟨?_, ?_, ?_⟩
  · intro fn st h hf
    obtain ⟨h1, h2, h3, h4, h5, h6, h7⟩ := Srv.readData_corrupt fn raw st h hf
    exact ⟨h1, h2, h6⟩
  · intro st h hf
    obtain ⟨h1, h2, h3, h4, h5, h6, h7⟩ := Srv.readData_corrupt .dataF raw st h hf
    have hread := Srv.readData_valid .dataF Srv.initialStorage (Srv.readData .dataF st).2 h4 h2 rfl
    simp [Srv.getItems, hread, Srv.initialStorage, jsField, lookupField, Srv.tr]
    exact h2
  · intro st h hf
    have hcor := P1.readStorage_corrupt raw st h hf
    refine ⟨by rw [hcor], by rw [hcor]; simpa [P1.consoleOut, P1.tr] using hf, ?_, ?_, ?_⟩ <;>
      simp [P1.getItems, hcor, P1.initialStorage, jsField, lookupField, P1.consoleOut, P1.tr, hf]

theorem c1_amended_witness :
    (Srv.readData .dataF c1SrvCexSt).1 = Except.ok (Srv.initialFor .dataF) ∧
    Srv.getFile .dataF (Srv.readData .dataF c1SrvCexSt).2 =
      DiskContent.valid (Srv.initialFor .dataF) ∧
    (Srv.getItems (Srv.readData .dataF c1SrvCexSt).2).1.status = 200 ∧
    (P1.getItems c1CexSt).1.status = 200 ∧
    (P1.getItems c1CexSt).2.storageFile = DiskContent.corrupt "busted" := by
  have h := c1_amended "busted"
  exact ⟨(h.1 .dataF c1SrvCexSt rfl rfl).1, (h.1 .dataF c1SrvCexSt rfl rfl).2.1,
         (h.2.1 c1SrvCexSt rfl rfl).1, (h.2.2 c1CexSt rfl rfl).2.2.1,
         (h.2.2 c1CexSt rfl rfl).2.2.2.2⟩

/-- C2 counterexample: in `part_001`, on a first write (no prior storage
file) the backup-copy step fails and that failure makes the write itself
fail — the error propagates, and the trace shows the overwrite step was
never reached — refuting that a failure of the backup copy step never
causes the write to fail. -/
theorem c2_counterexample :
    (P1.writeStorage P1.initialStorage c2CexSt).1 = Except.error Srv.IOErr.enoent ∧
    (P1.writeStorage P1.initialStorage c2CexSt).2.storageFile = DiskContent.missing ∧
    (P1.writeStorage P1.initialStorage c2CexSt).2.trace = [P1.FsEv.copyEv] :=
  ⟨rfl, rfl, rfl⟩

/-- C2 amended: `server.js`'s `writeData` performs exactly the three
steps in order — backup copy, overwrite with the serialized document,
backup deletion — and the copy and deletion steps are best-effort: with
no I/O fault the write always succeeds and never raises, in particular
on a first write (missing prior file and backup) where both best-effort
steps fail and are only logged to the console.  `part_001`'s
`writeStorage` performs the same three steps, but a failure of the
backup copy — in particular a missing prior file on first write — aborts
the write and propagates the error to the caller. -/
theorem c2_amended :
    (∀ fn d (st : Srv.FsState), st.ioFault = false →
      (Srv.writeData fn d st).1 = Except.ok () ∧
      Srv.getFile fn (Srv.writeData fn d st).2 = DiskContent.valid d ∧
      Srv.getBackup fn (Srv.writeData fn d st).2 = DiskContent.missing ∧
      (Srv.writeData fn d st).2.trace =
        st.trace ++ [Srv.FsEv.copyEv fn, Srv.FsEv.writeEv fn, Srv.FsEv.unlinkEv fn]) ∧
    (∀ fn d (st : Srv.FsState), st.ioFault = false →
      Srv.getFile fn st = DiskContent.missing → Srv.getBackup fn st = DiskContent.missing →
      (Srv.writeData fn d st).1 = Except.ok () ∧
      (Srv.writeData fn d st).2.consoleLog =
        st.consoleLog ++ ["Could not create backup of " ++ Srv.nameOf fn,
                          "Could not remove backup file " ++ Srv.nameOf fn ++ ".backup"]) ∧
    (∀ d (st : P1.St), st.ioFault = false → st.storageFile ≠ DiskContent.missing →
      (P1.writeStorage d st).1 = Except.ok () ∧
      (P1.writeStorage d st).2.storageFile = DiskContent.valid d ∧
      (P1.writeStorage d st).2.trace =
        st.trace ++ [P1.FsEv.copyEv, P1.FsEv.writeEv, P1.FsEv.unlinkEv]) ∧
    (∀ d (st : P1.St), st.ioFault = false → st.storageFile = DiskContent.missing →
      (P1.writeStorage d st).1 = Except.error Srv.IOErr.enoent ∧
      (P1.writeStorage d st).2.storageFile = DiskContent.missing ∧
      (P1.writeStorage d st).2.trace = st.trace ++ [P1.FsEv.copyEv]) := by
  refine ⟨?_, ?_, ?_, ?_⟩
  · intro fn d st h
    obtain ⟨h1, h2, h3, h4, h5, h6⟩ := Srv.writeData_run fn d st h
    exact ⟨h1, h2, h3, h6⟩
  · intro fn d st h hf hb
    obtain ⟨h1, h2, h3⟩ := Srv.writeData_missing_warns fn d st h hf hb
    exact ⟨h1, h3⟩
  · intro d st h hf
    rw [P1.writeStorage_ok d st h hf]
    exact ⟨rfl, rfl, rfl⟩
  · intro d st h hf
    rw [P1.writeStorage_missing d st h hf]
    exact ⟨rfl, hf, rfl⟩

theorem c2_amended_witness :
    (Srv.writeData .dataF Srv.initialStorage emptySrvSt).1 = Except.ok () ∧
    (Srv.writeData .dataF Srv.initialStorage c2SrvMissingSt).1 = Except.ok () ∧
    (P1.writeStorage P1.initialStorage emptyP1St).1 = Except.ok () ∧
    (P1.writeStorage P1.initialStorage c2CexSt).1 = Except.error Srv.IOErr.enoent := by
  have h := c2_amended
  exact ⟨(h.1 .dataF Srv.initialStorage emptySrvSt rfl).1,
         (h.2.1 .dataF Srv.initialStorage c2SrvMissingSt rfl rfl rfl).1,
         (h.2.2.1 P1.initialStorage emptyP1St rfl
           (fun hc => DiskContent.noConfusion hc)).1,
         (h.2.2.2 P1.initialStorage c2CexSt rfl rfl).1⟩

namespace Srv

theorem readData_validObj (fn : FileName) (fields : List (String × Json)) (st : FsState)
    (h : st.ioFault = false) (hf : getFile fn st = DiskContent.valid (Json.obj fields)) :
    ∃ v, readData fn st = (Except.ok v, tr (FsEv.readEv fn) st) ∧
         truthyOpt (jsField v (keyOf fn)) = true := by
  by_cases hk : truthyOpt (jsField (Json.obj fields) (keyOf fn)) = true
  · exact ⟨Json.obj fields, readData_valid fn (Json.obj fields) st h hf hk, hk⟩
  · rw [Bool.not_eq_true] at hk
    refine ⟨Json.obj (setField fields (keyOf fn) (Json.arr [])), ?_, ?_⟩
    · obtain ⟨df, db, rf, rb, el, cl, tc, io⟩ := st
      have h' : io = false := h
      subst h'
      cases fn
      · have hdf : df = DiskContent.valid (Json.obj fields) := hf
        subst hdf
        simp_all [readData, safeFileOperation, fsReadFile, jsonParse, validateDoc,
                  keyOf, tr, jsAssign, getFile]
      · have hrf : rf = DiskContent.valid (Json.obj fields) := hf
        subst hrf
        simp_all [readData, safeFileOperation, fsReadFile, jsonParse, validateDoc,
                  keyOf, tr, jsAssign, getFile]
    · simp [jsField, lookup_set_self, truthyOpt, truthy]

end Srv

/-- C4 counterexample: after a read of valid JSON whose `items` key holds
the truthy non-sequence value `5`, `server.js`'s `readData` returns the
document unchanged — the top-level key does not map to a sequence and no
recovery restores the invariant; and `part_001`'s `readStorage` returns
a parsed document lacking the `conversations` key entirely. -/
theorem c4_counterexample :
    (Srv.readData .dataF c4CexSt).1 = Except.ok (Json.obj [("items", Json.num 5)]) ∧
    (∀ l : List Json,
      jsField (Json.obj [("items", Json.num 5)]) "items" ≠ some (Json.arr l)) ∧
    (P1.readStorage c4P1CexSt).1 = Json.obj [("wrong", Json.num 1)] ∧
    jsField (Json.obj [("wrong", Json.num 1)]) "conversations" = none := by
  refine ⟨rfl, ?_, rfl, rfl⟩
  intro l hl
  simp [jsField, lookupField] at hl

/-- C4 amended: initialization seeds each absent file with its canonical
shape, whose key maps to the empty sequence, and `server.js`'s `readData`
restores the key on recovery — full reset on unparseable content, and on
a successfully parsed object document the key is guaranteed to exist and
be truthy (a missing or falsy key becomes the empty sequence).  It does
not guarantee the key maps to a sequence: a truthy non-sequence value is
kept.  `part_001`'s `readStorage` performs no key validation at all on
successfully parsed content, returning it verbatim. -/
theorem c4_amended :
    (∀ fn, jsField (Srv.initialFor fn) (Srv.keyOf fn) = some (Json.arr [])) ∧
    (∀ st : Srv.FsState, st.dataFile = DiskContent.missing →
      (Srv.initializeFileSystem st).dataFile = DiskContent.valid Srv.initialStorage) ∧
    (∀ st : Srv.FsState, st.requestsFile = DiskContent.missing →
      (Srv.initializeFileSystem st).requestsFile = DiskContent.valid Srv.initialRequests) ∧
    (∀ fn raw (st : Srv.FsState), st.ioFault = false →
      Srv.getFile fn st = DiskContent.corrupt raw →
      (Srv.readData fn st).1 = Except.ok (Srv.initialFor fn)) ∧
    (∀ fn fields (st : Srv.FsState), st.ioFault = false →
      Srv.getFile fn st = DiskContent.valid (Json.obj fields) →
      ∃ v, (Srv.readData fn st).1 = Except.ok v ∧
           truthyOpt (jsField v (Srv.keyOf fn)) = true) ∧
    (∀ j (st : P1.St), st.ioFault = false → st.storageFile = DiskContent.valid j →
      (P1.readStorage st).1 = j) := by
  refine ⟨?_, ?_, ?_, ?_, ?_, ?_⟩
  · intro fn; cases fn <;> rfl
  · intro st hm
    obtain ⟨df, db, rf, rb, el, cl, tc, io⟩ := st
    have hdf : df = DiskContent.missing := hm
    subst hdf
    cases rf <;> simp [Srv.initializeFileSystem, Srv.initializeFile, Srv.getFile, Srv.setFile,
                       Srv.initialFor]
  · intro st hm
    obtain ⟨df, db, rf, rb, el, cl, tc, io⟩ := st
    have hrf : rf = DiskContent.missing := hm
    subst hrf
    cases df <;> simp [Srv.initializeFileSystem, Srv.initializeFile, Srv.getFile, Srv.setFile,
                       Srv.initialFor]
  · intro fn raw st h hf
    exact (Srv.readData_corrupt fn raw st h hf).1
  · intro fn fields st h hf
    obtain ⟨v, hv, hk⟩ := Srv.readData_validObj fn fields st h hf
    exact ⟨v, by rw [hv], hk⟩
  · intro j st h hf
    rw [P1.readStorage_valid j st h hf]

theorem c4_amended_witness :
    (Srv.initializeFileSystem c2SrvMissingSt).dataFile = DiskContent.valid Srv.initialStorage ∧
    (Srv.readData .dataF c1SrvCexSt).1 = Except.ok (Srv.initialFor .dataF) ∧
    (∃ v, (Srv.readData .dataF emptySrvSt).1 = Except.ok v ∧
          truthyOpt (jsField v (Srv.keyOf .dataF)) = true) ∧
    (P1.readStorage c4P1CexSt).1 = Json.obj [("wrong", Json.num 1)] := by
  have h := c4_amended
  exact ⟨h.2.1 c2SrvMissingSt rfl,
         h.2.2.2.1 .dataF "busted" c1SrvCexSt rfl rfl,
         h.2.2.2.2.1 .dataF [("items", Json.arr [])] emptySrvSt rfl rfl,
         h.2.2.2.2.2 (Json.obj [("wrong", Json.num 1)]) c4P1CexSt rfl rfl⟩

namespace P1

theorem userMatches_iff (email : String) (c : Json) :
    userMatches email c = true ↔ jsField c "user" = some (Json.str email) := by
  unfold userMatches
  cases hj : jsField c "user" with
  | none => simp
  | some v => cases v <;> simp

end P1

/-- C7: `GET /items/user/:email` (part_001) answers 200 with exactly the
subsequence of stored Records whose embedded user email strictly equals
the given value, in the original order (a sublist containing all and
only the matching Records); zero matches yield the empty sequence, not
an error. -/
theorem c7_filter_by_user (email : String) (l : List Json) (fields : List (String × Json))
    (st : P1.St) (h : st.ioFault = false)
    (hf : st.storageFile = DiskContent.valid (Json.obj fields))
    (hc : lookupField fields "conversations" = some (Json.arr l))
    (hrec : ∀ c ∈ l, c ≠ Json.null) :
    (P1.getUserItems email st).1.status = 200 ∧
    (P1.getUserItems email st).1.body = some (Json.arr (l.filter (P1.userMatches email))) ∧
    List.Sublist (l.filter (P1.userMatches email)) l ∧
    (∀ c ∈ l.filter (P1.userMatches email), jsField c "user" = some (Json.str email)) ∧
    (∀ c ∈ l, jsField c "user" = some (Json.str email) →
      c ∈ l.filter (P1.userMatches email)) ∧
    ((∀ c ∈ l, jsField c "user" ≠ some (Json.str email)) →
      (P1.getUserItems email st).1.body = some (Json.arr [])) := by
  have hnone : l.any P1.isNull = false := by
    rw [List.any_eq_false]
    intro c hcm
    have hne := hrec c hcm
    cases c <;> simp_all [P1.isNull]
  have hga : P1.getUserItems email st =
      ({ status := 200, body := some (Json.arr (l.filter (P1.userMatches email))) },
        P1.tr P1.FsEv.readEv st) := by
    simp [P1.getUserItems, P1.readStorage_valid (Json.obj fields) st h hf, hc,
          P1.filterConvs, hnone]
  refine ⟨by rw [hga], by rw [hga], List.filter_sublist l, ?_, ?_, ?_⟩
  · intro c hcm
    exact (P1.userMatches_iff email c).mp (List.mem_filter.mp hcm).2
  · intro c hcm hu
    exact List.mem_filter.mpr ⟨hcm, (P1.userMatches_iff email c).mpr hu⟩
  · intro hall
    rw [hga]
    have : l.filter (P1.userMatches email) = [] := by
      rw [List.filter_eq_nil_iff]
      intro c hcm hm
      exact hall c hcm ((P1.userMatches_iff email c).mp hm)
    simp [this]

theorem c7_filter_by_user_witness :
    (P1.getUserItems "a@x" c7St).1.status = 200 ∧
    (P1.getUserItems "a@x" c7St).1.body =
      some (Json.arr ([c7Conv1, c7Conv2].filter (P1.userMatches "a@x"))) := by
  have h := c7_filter_by_user "a@x" [c7Conv1, c7Conv2]
      [("conversations", Json.arr [c7Conv1, c7Conv2])] c7St rfl rfl rfl
      (by intro c hcm hnull; subst hnull; simp [c7Conv1, c7Conv2] at hcm)
  exact ⟨h.1, h.2.1⟩

/-- C8 counterexample: with the disk unavailable, `part_001`'s
`GET /items` does not surface a 500 — `readStorage` swallows the I/O
failure and the handler answers 200 with the canonical empty sequence,
even though the stored document actually holds a record. -/
theorem c8_counterexample :
    (P1.getItems c8CexSt).1.status = 200 ∧
    (P1.getItems c8CexSt).1.body = some (Json.arr []) ∧
    (P1.getItems c8CexSt).1.status ≠ 500 := by
  refine ⟨rfl, rfl, ?_⟩
  have h200 : (P1.getItems c8CexSt).1.status = 200 := rfl
  omega

/-- C8 amended: in `server.js` every store I/O failure is appended to the
error log and surfaced to the caller as a 500, with the trace showing a
single attempt of each operation (nothing retried) — both on the read
path (`GET /items`, `POST /items`) and inside `writeData`.  In
`part_001`, a write failure is logged and surfaced as 500, but a read
failure is swallowed by `readStorage`: the handler answers 200 with the
canonical empty shape and only the console ever sees the failure. -/
theorem c8_amended :
    (∀ st : Srv.FsState, st.ioFault = true →
      (Srv.getItems st).1 = Srv.err500 "Failed to retrieve items" ∧
      (Srv.getItems st).2.errorLog = st.errorLog ++ [Srv.errEntry .faulted] ∧
      (Srv.getItems st).2.trace =
        st.trace ++ [Srv.FsEv.readEv .dataF, Srv.FsEv.appendEv]) ∧
    (∀ body now ts (st : Srv.FsState), st.ioFault = true →
      (Srv.postItems body now ts st).1 = Srv.err500 "Failed to create item" ∧
      (Srv.postItems body now ts st).2.errorLog = st.errorLog ++ [Srv.errEntry .faulted] ∧
      (Srv.postItems body now ts st).2.trace =
        st.trace ++ [Srv.FsEv.readEv .dataF, Srv.FsEv.appendEv]) ∧
    (∀ fn d (st : Srv.FsState), st.ioFault = true →
      (Srv.writeData fn d st).1 = Except.error Srv.IOErr.faulted ∧
      (Srv.writeData fn d st).2.errorLog = st.errorLog ++ [Srv.errEntry .faulted]) ∧
    (∀ body now ts (st : P1.St), st.ioFault = true →
      truthyOpt (jsField body "content") = true →
      (P1.postItems body now ts st).1.status = 500 ∧
      (P1.postItems body now ts st).2.errorLog = st.errorLog ++ ["write failed"]) ∧
    (∀ st : P1.St, st.ioFault = true →
      (P1.getItems st).1.status = 200 ∧
      (P1.getItems st).1.body = some (Json.arr []) ∧
      (P1.getItems st).2.errorLog = st.errorLog ∧
      (P1.getItems st).2.consoleLog = st.consoleLog ++ ["Error reading storage"]) := by
  refine ⟨?_, ?_, ?_, ?_, ?_⟩
  · intro st h
    simp [Srv.getItems, Srv.readData_fault .dataF st h, Srv.err500,
          Srv.appendErrorLog, Srv.tr, Srv.errEntry]
  · intro body now ts st h
    simp [Srv.postItems, Srv.readData_fault .dataF st h, Srv.err500,
          Srv.appendErrorLog, Srv.tr, Srv.errEntry]
  · intro fn d st h
    obtain ⟨h1, h2, h3, h4, h5⟩ := Srv.writeData_fault fn d st h
    exact ⟨h1, h3⟩
  · intro body now ts st h hc
    have heff := P1.readStorage_effects st
    have hio : (P1.readStorage st).2.ioFault = true := by rw [heff.2.2.2.1, h]
    have hel : (P1.readStorage st).2.errorLog = st.errorLog := heff.2.2.1
    have hr1 : (P1.readStorage st).1 = P1.initialStorage := by
      rw [P1.readStorage_fault st h]
    have hw := P1.writeStorage_fault (Json.obj [("conversations", Json.arr
        [P1.mkConversation ((jsField body "content").getD Json.null)
          (jsField body "user") now ts])]) (P1.readStorage st).2 hio
    simp [P1.postItems, hc, hr1, P1.initialStorage, jsPushField, lookupField, setField,
          hw, P1.logError, P1.tr, hel, P1.err500]
  · intro st h
    simp [P1.getItems, P1.readStorage_fault st h, P1.initialStorage, jsField,
          lookupField, P1.consoleOut, P1.tr]

theorem c8_amended_witness :
    (Srv.getItems c8SrvSt).1 = Srv.err500 "Failed to retrieve items" ∧
    (Srv.writeData .dataF Srv.initialStorage c8SrvSt).1 = Except.error Srv.IOErr.faulted ∧
    (P1.postItems (Json.obj [("content", Json.str "hello")]) 3 "T" c8CexSt).1.status = 500 ∧
    (P1.getItems c8CexSt).1.status = 200 := by
  have h := c8_amended
  exact ⟨(h.1 c8SrvSt rfl).1,
         (h.2.2.1 .dataF Srv.initialStorage c8SrvSt rfl).1,
         (h.2.2.2.1 (Json.obj [("content", Json.str "hello")]) 3 "T" c8CexSt rfl rfl).1,
         (h.2.2.2.2 c8CexSt rfl).1⟩

namespace P0

theorem getUserInfo_email_name (body : Json) (ts1 ts2 : String) :
    jsField (getUserInfo body ts1) "email" = jsField (getUserInfo body ts2) "email" ∧
    jsField (getUserInfo body ts1) "name" = jsField (getUserInfo body ts2) "name" := by
  unfold getUserInfo anonInfo
  refine ⟨?_, ?_⟩ <;>
    (repeat first
      | rfl
      | split)

theorem logRequest_ok (req : Request) (now : Int) (ts : String) (st : Srv.FsState)
    (fields : List (String × Json)) (l : List Json) (h : st.ioFault = false)
    (hf : st.requestsFile = DiskContent.valid (Json.obj fields))
    (hl : lookupField fields "requests" = some (Json.arr l)) :
    (logRequest req now ts st).1 = some (getUserInfo req.body ts) ∧
    (logRequest req now ts st).2.requestsFile =
      DiskContent.valid (Json.obj (setField fields "requests"
        (Json.arr (l ++ [auditOf req now ts])))) ∧
    (logRequest req now ts st).2.ioFault = false := by
  have hread := Srv.readData_valid .requestsF (Json.obj fields) st h hf
      (by simp [Srv.keyOf, jsField, hl, truthyOpt, truthy])
  have hpush : jsPushField (Json.obj fields) "requests"
      (mkAuditRecord req (getUserInfo req.body ts) now ts) =
      some (Json.obj (setField fields "requests"
        (Json.arr (l ++ [auditOf req now ts])))) := by
    simp [jsPushField, hl, auditOf]
  have hwr := Srv.writeData_run .requestsF
      (Json.obj (setField fields "requests" (Json.arr (l ++ [auditOf req now ts]))))
      (Srv.tr (Srv.FsEv.readEv .requestsF) st) (by simp [Srv.tr, h])
  rcases hws : Srv.writeData .requestsF
      (Json.obj (setField fields "requests" (Json.arr (l ++ [auditOf req now ts]))))
      (Srv.tr (Srv.FsEv.readEv .requestsF) st) with ⟨r, s2⟩
  rw [hws] at hwr
  obtain ⟨hr, hfile, hbak, hio, hlog, htr⟩ := hwr
  simp only at hr
  subst hr
  simp [logRequest, hread, hpush, hws]
  exact ⟨hfile, hio⟩

end P0

/-- C9: in part_000 the request-logging middleware is registered twice
(lines 69 and 158), so every request that completes the middleware chain
appends two request-audit records to the requests document rather than
one, both carrying the request's method and path and the resolved user
identity (same email and name; each invocation stamps its own
timestamp). -/
theorem c9_double_logging (req : P0.Request) (now1 now2 : Int) (ts1 ts2 : String)
    (fields : List (String × Json)) (l : List Json) (st : Srv.FsState)
    (h : st.ioFault = false)
    (hf : st.requestsFile = DiskContent.valid (Json.obj fields))
    (hl : lookupField fields "requests" = some (Json.arr l)) :
    (P0.runMiddlewares req now1 ts1 now2 ts2 st).1 = some (P0.getUserInfo req.body ts2) ∧
    (P0.runMiddlewares req now1 ts1 now2 ts2 st).2.requestsFile =
      DiskContent.valid (Json.obj (setField fields "requests"
        (Json.arr (l ++ [P0.auditOf req now1 ts1, P0.auditOf req now2 ts2])))) ∧
    jsField (P0.auditOf req now1 ts1) "method" = some (Json.str req.method) ∧
    jsField (P0.auditOf req now2 ts2) "method" = some (Json.str req.method) ∧
    jsField (P0.auditOf req now1 ts1) "path" = some (Json.str req.path) ∧
    jsField (P0.auditOf req now2 ts2) "path" = some (Json.str req.path) ∧
    jsField (P0.auditOf req now1 ts1) "user" = some (P0.getUserInfo req.body ts1) ∧
    jsField (P0.auditOf req now2 ts2) "user" = some (P0.getUserInfo req.body ts2) ∧
    jsField (P0.getUserInfo req.body ts1) "email" =
      jsField (P0.getUserInfo req.body ts2) "email" ∧
    jsField (P0.getUserInfo req.body ts1) "name" =
      jsField (P0.getUserInfo req.body ts2) "name" := by
  obtain ⟨h11, h12, h13⟩ := P0.logRequest_ok req now1 ts1 st fields l h hf hl
  obtain ⟨h21, h22, h23⟩ := P0.logRequest_ok req now2 ts2 (P0.logRequest req now1 ts1 st).2
      (setField fields "requests" (Json.arr (l ++ [P0.auditOf req now1 ts1])))
      (l ++ [P0.auditOf req now1 ts1]) h13 h12 (lookup_set_self _ _ _)
  have hrun : P0.runMiddlewares req now1 ts1 now2 ts2 st =
      P0.logRequest req now2 ts2 (P0.logRequest req now1 ts1 st).2 := by
    unfold P0.runMiddlewares
    rcases hsp : P0.logRequest req now1 ts1 st with ⟨u, s1⟩
    rw [hsp] at h11
    simp only at h11
    subst h11
    simp
  rw [hrun]
  refine ⟨h21, ?_, rfl, rfl, rfl, rfl, rfl, rfl,
    (P0.getUserInfo_email_name req.body ts1 ts2).1,
    (P0.getUserInfo_email_name req.body ts1 ts2).2⟩
  rw [h22, set_set]
  simp

theorem c9_double_logging_witness :
    (P0.runMiddlewares c9Req 1 "T1" 2 "T2" emptySrvSt).1 =
      some (P0.getUserInfo c9Req.body "T2") ∧
    (P0.runMiddlewares c9Req 1 "T1" 2 "T2" emptySrvSt).2.requestsFile =
      DiskContent.valid (Json.obj (setField [("requests", Json.arr [])] "requests"
        (Json.arr ([] ++ [P0.auditOf c9Req 1 "T1", P0.auditOf c9Req 2 "T2"])))) := by
  have h := c9_double_logging c9Req 1 2 "T1" "T2" [("requests", Json.arr [])] []
      emptySrvSt rfl rfl rfl
  exact ⟨h.1, h.2.1⟩

namespace Srv

theorem postItemsSrv_ok (body : Json) (now : Int) (ts : String) (fields : List (String × Json))
    (l : List Json) (st : FsState) (h : st.ioFault = false)
    (hf : st.dataFile = DiskContent.valid (Json.obj fields))
    (hl : lookupField fields "items" = some (Json.arr l)) :
    (postItems body now ts st).1.status = 201 ∧
    (postItems body now ts st).1.body = some (mkNewItem body now ts) ∧
    (postItems body now ts st).2.dataFile =
      DiskContent.valid (Json.obj (setField fields "items"
        (Json.arr (l ++ [mkNewItem body now ts])))) ∧
    (postItems body now ts st).2.ioFault = false := by
  have hread := readData_valid .dataF (Json.obj fields) st h hf
      (by simp [keyOf, jsField, hl, truthyOpt, truthy])
  have hpush : jsPushField (Json.obj fields) "items" (mkNewItem body now ts) =
      some (Json.obj (setField fields "items" (Json.arr (l ++ [mkNewItem body now ts])))) := by
    simp [jsPushField, hl]
  have hwr := writeData_run .dataF
      (Json.obj (setField fields "items" (Json.arr (l ++ [mkNewItem body now ts]))))
      (tr (FsEv.readEv .dataF) st) (by simp [tr, h])
  rcases hws : writeData .dataF
      (Json.obj (setField fields "items" (Json.arr (l ++ [mkNewItem body now ts]))))
      (tr (FsEv.readEv .dataF) st) with ⟨r, s2⟩
  rw [hws] at hwr
  obtain ⟨hr, hfile, hbak, hio, hlog, htr⟩ := hwr
  simp only at hr
  subst hr
  simp [postItems, hread, hpush, hws]
  exact ⟨hfile, hio⟩

end Srv

namespace P0

theorem postItemsP0_ok (body userInfo : Json) (now : Int) (ts : String)
    (fields : List (String × Json)) (l : List Json) (st : Srv.FsState)
    (h : st.ioFault = false)
    (hf : st.dataFile = DiskContent.valid (Json.obj fields))
    (hl : lookupField fields "items" = some (Json.arr l)) :
    (postItems body userInfo now ts st).1.status = 201 ∧
    (postItems body userInfo now ts st).1.body = some (mkNewItem body userInfo now ts) ∧
    (postItems body userInfo now ts st).2.dataFile =
      DiskContent.valid (Json.obj (setField fields "items"
        (Json.arr (l ++ [mkNewItem body userInfo now ts])))) ∧
    (postItems body userInfo now ts st).2.ioFault = false := by
  have hread := Srv.readData_valid .dataF (Json.obj fields) st h hf
      (by simp [Srv.keyOf, jsField, hl, truthyOpt, truthy])
  have hpush : jsPushField (Json.obj fields) "items" (mkNewItem body userInfo now ts) =
      some (Json.obj (setField fields "items"
        (Json.arr (l ++ [mkNewItem body userInfo now ts])))) := by
    simp [jsPushField, hl]
  have hwr := Srv.writeData_run .dataF
      (Json.obj (setField fields "items" (Json.arr (l ++ [mkNewItem body userInfo now ts]))))
      (Srv.tr (Srv.FsEv.readEv .dataF) st) (by simp [Srv.tr, h])
  rcases hws : Srv.writeData .dataF
      (Json.obj (setField fields "items" (Json.arr (l ++ [mkNewItem body userInfo now ts]))))
      (Srv.tr (Srv.FsEv.readEv .dataF) st) with ⟨r, s2⟩
  rw [hws] at hwr
  obtain ⟨hr, hfile, hbak, hio, hlog, htr⟩ := hwr
  simp only at hr
  subst hr
  simp [postItems, hread, hpush, hws]
  exact ⟨hfile, hio⟩

end P0

namespace P1

theorem postItemsP1_ok (body c : Json) (now : Int) (ts : String)
    (fields : List (String × Json)) (l : List Json) (st : St) (h : st.ioFault = false)
    (hm : st.storageFile = DiskContent.valid (Json.obj fields))
    (hl : lookupField fields "conversations" = some (Json.arr l))
    (hc : jsField body "content" = some c) (htc : truthy c = true) :
    (postItems body now ts st).1.status = 201 ∧
    (postItems body now ts st).1.body =
      some (mkConversation c (jsField body "user") now ts) ∧
    (postItems body now ts st).2.storageFile =
      DiskContent.valid (Json.obj (setField fields "conversations"
        (Json.arr (l ++ [mkConversation c (jsField body "user") now ts])))) ∧
    (postItems body now ts st).2.ioFault = false := by
  have hread := readStorage_valid (Json.obj fields) st h hm
  have hio1 : (tr FsEv.readEv st).ioFault = false := by simp [tr, h]
  have hnm : (tr FsEv.readEv st).storageFile ≠ DiskContent.missing := by
    simp [tr, hm]
  have hw := writeStorage_ok (Json.obj (setField fields "conversations"
      (Json.arr (l ++ [mkConversation c (jsField body "user") now ts]))))
      (tr FsEv.readEv st) hio1 hnm
  simp [postItems, hread, hc, truthyOpt, htc, jsPushField, hl, hw, hio1]

end P1

/-- C6 counterexample: ids are `Date.now()` values, so a POST handled in
the same millisecond as an earlier one receives an id equal — not
strictly greater — to an existing Record's id: here the POST succeeds
with 201 and appends a Record whose id is 5 while a prior Record with id
5 is already present. -/
theorem c6_counterexample :
    (Srv.postItems (Json.obj [("content", Json.str "new")]) 5 "T1" c6CexSt).1.status = 201 ∧
    (Srv.postItems (Json.obj [("content", Json.str "new")]) 5 "T1" c6CexSt).1.body =
      some (Srv.mkNewItem (Json.obj [("content", Json.str "new")]) 5 "T1") ∧
    jsField (Srv.mkNewItem (Json.obj [("content", Json.str "new")]) 5 "T1") "id" =
      some (Json.num 5) ∧
    c6Item ∈ [c6Item] ∧
    jsField c6Item "id" = some (Json.num 5) ∧
    ¬ (∀ j ∈ [c6Item], ∀ i : Int, jsField j "id" = some (Json.num i) → i < 5) := by
  refine ⟨rfl, rfl, rfl, by simp, rfl, ?_⟩
  intro hall
  exact absurd (hall c6Item (by simp) 5 rfl) (lt_irrefl 5)

/-- C6 amended: for all valid content and with no I/O fault, `POST
/items` appends exactly one new Record at the end of the stored sequence
and answers 201 with it, a subsequent `GET /items` returns the extended
sequence, the new id is the `Date.now()` value of the POST, and it is
strictly greater than every prior Record's id provided the clock value
exceeds all prior ids (two operations in the same millisecond receive
equal ids).  The created Record's content equals the posted content in
`server.js`; in `part_001` the stored content is the message/response
projection of the posted content, equal to it exactly when the posted
content has exactly that two-field shape. -/
theorem c6_amended :
    (∀ (body c : Json) (now : Int) (ts : String) (fields : List (String × Json))
        (l : List Json) (st : Srv.FsState),
      st.ioFault = false →
      st.dataFile = DiskContent.valid (Json.obj fields) →
      lookupField fields "items" = some (Json.arr l) →
      jsField body "content" = some c →
      (∀ j ∈ l, ∀ i : Int, jsField j "id" = some (Json.num i) → i < now) →
      (Srv.postItems body now ts st).1.status = 201 ∧
      (Srv.postItems body now ts st).1.body = some (Srv.mkNewItem body now ts) ∧
      jsField (Srv.mkNewItem body now ts) "id" = some (Json.num now) ∧
      jsField (Srv.mkNewItem body now ts) "content" = some c ∧
      (Srv.postItems body now ts st).2.dataFile =
        DiskContent.valid (Json.obj (setField fields "items"
          (Json.arr (l ++ [Srv.mkNewItem body now ts])))) ∧
      (Srv.getItems (Srv.postItems body now ts st).2).1.status = 200 ∧
      (Srv.getItems (Srv.postItems body now ts st).2).1.body =
        some (Json.arr (l ++ [Srv.mkNewItem body now ts])) ∧
      (∀ j ∈ l, ∀ i ni : Int, jsField j "id" = some (Json.num i) →
        jsField (Srv.mkNewItem body now ts) "id" = some (Json.num ni) → i < ni)) ∧
    (∀ (body m r : Json) (now : Int) (ts : String) (fields : List (String × Json))
        (l : List Json) (st : P1.St),
      st.ioFault = false →
      st.storageFile = DiskContent.valid (Json.obj fields) →
      lookupField fields "conversations" = some (Json.arr l) →
      jsField body "content" = some (Json.obj [("message", m), ("response", r)]) →
      (P1.postItems body now ts st).1.status = 201 ∧
      (P1.postItems body now ts st).1.body =
        some (P1.mkConversation (Json.obj [("message", m), ("response", r)])
          (jsField body "user") now ts) ∧
      jsField (P1.mkConversation (Json.obj [("message", m), ("response", r)])
        (jsField body "user") now ts) "id" = some (Json.num now) ∧
      jsField (P1.mkConversation (Json.obj [("message", m), ("response", r)])
        (jsField body "user") now ts) "content" =
        some (Json.obj [("message", m), ("response", r)]) ∧
      (P1.getItems (P1.postItems body now ts st).2).1.status = 200 ∧
      (P1.getItems (P1.postItems body now ts st).2).1.body =
        some (Json.arr (l ++ [P1.mkConversation (Json.obj [("message", m), ("response", r)])
          (jsField body "user") now ts]))) := by
  constructor
  · intro body c now ts fields l st h hf hl hc hids
    obtain ⟨p1, p2, p3, p4⟩ := Srv.postItemsSrv_ok body now ts fields l st h hf hl
    have hread2 := Srv.readData_valid .dataF
        (Json.obj (setField fields "items" (Json.arr (l ++ [Srv.mkNewItem body now ts]))))
        (Srv.postItems body now ts st).2 p4 p3
        (by simp [Srv.keyOf, jsField, lookup_set_self, truthyOpt, truthy])
    refine ⟨p1, p2, rfl, ?_, p3, ?_, ?_, ?_⟩
    · simp only [Srv.mkNewItem]
      rw [jsField]
      rw [hc]
      simp [optField, lookupField]
    · simp [Srv.getItems, hread2]
    · simp [Srv.getItems, hread2, jsField, lookup_set_self]
    · intro j hj i ni hji hni
      have hid : jsField (Srv.mkNewItem body now ts) "id" = some (Json.num now) := rfl
      rw [hid] at hni
      injection hni with hx1
      injection hx1 with hx2
      exact hx2 ▸ hids j hj i hji
  · intro body m r now ts fields l st h hf hl hc
    obtain ⟨p1, p2, p3, p4⟩ := P1.postItemsP1_ok body (Json.obj [("message", m), ("response", r)])
        now ts fields l st h hf hl hc rfl
    have hread2 := P1.readStorage_valid
        (Json.obj (setField fields "conversations" (Json.arr
          (l ++ [P1.mkConversation (Json.obj [("message", m), ("response", r)])
            (jsField body "user") now ts]))))
        (P1.postItems body now ts st).2 p4 p3
    refine ⟨p1, p2, rfl, rfl, ?_, ?_⟩ <;>
      simp [P1.getItems, hread2, jsField, lookup_set_self]

theorem c6_amended_witness :
    (Srv.postItems (Json.obj [("content", Json.str "hi")]) 9 "T" emptySrvSt).1.status = 201 ∧
    jsField (Srv.mkNewItem (Json.obj [("content", Json.str "hi")]) 9 "T") "content" =
      some (Json.str "hi") ∧
    (P1.postItems (Json.obj [("content", Json.obj [("message", Json.str "q"),
      ("response", Json.str "a")])]) 9 "T" emptyP1St).1.status = 201 ∧
    jsField (P1.mkConversation (Json.obj [("message", Json.str "q"),
      ("response", Json.str "a")]) (jsField (Json.obj [("content",
      Json.obj [("message", Json.str "q"), ("response", Json.str "a")])]) "user") 9 "T")
      "content" = some (Json.obj [("message", Json.str "q"), ("response", Json.str "a")]) := by
  have h := c6_amended
  have hA := h.1 (Json.obj [("content", Json.str "hi")]) (Json.str "hi") 9 "T"
      [("items", Json.arr [])] [] emptySrvSt rfl rfl rfl rfl
      (by intro j hj; simp at hj)
  have hB := h.2 (Json.obj [("content", Json.obj [("message", Json.str "q"),
      ("response", Json.str "a")])]) (Json.str "q") (Json.str "a") 9 "T"
      [("conversations", Json.arr [])] [] emptyP1St rfl rfl rfl rfl
  exact ⟨hA.1, hA.2.2.2.1, hB.1, hB.2.2.2.1⟩

/-- C10: in the item-storage variants (`server.js` and `part_000`), a
`POST /items` whose body lacks the `content` field performs no
validation: the handler still constructs and appends a Record whose
`content` is `undefined` — hence absent from the serialized record — and
answers 201 with that Record, rather than rejecting with 400. -/
theorem c10_no_validation (body userInfo : Json) (now : Int) (ts : String)
    (fields fields0 : List (String × Json)) (l l0 : List Json)
    (st st0 : Srv.FsState)
    (h : st.ioFault = false) (hf : st.dataFile = DiskContent.valid (Json.obj fields))
    (hl : lookupField fields "items" = some (Json.arr l))
    (hb : jsField body "content" = none)
    (h0 : st0.ioFault = false) (hf0 : st0.dataFile = DiskContent.valid (Json.obj fields0))
    (hl0 : lookupField fields0 "items" = some (Json.arr l0)) :
    (Srv.postItems body now ts st).1.status = 201 ∧
    (Srv.postItems body now ts st).1.body = some (Srv.mkNewItem body now ts) ∧
    Srv.mkNewItem body now ts =
      Json.obj [("id", Json.num now), ("createdBy", Json.str "anonymous_user"),
                ("createdAt", Json.str ts)] ∧
    jsField (Srv.mkNewItem body now ts) "content" = none ∧
    (Srv.postItems body now ts st).2.dataFile =
      DiskContent.valid (Json.obj (setField fields "items"
        (Json.arr (l ++ [Srv.mkNewItem body now ts])))) ∧
    (P0.postItems body userInfo now ts st0).1.status = 201 ∧
    (P0.postItems body userInfo now ts st0).1.body =
      some (P0.mkNewItem body userInfo now ts) ∧
    jsField (P0.mkNewItem body userInfo now ts) "content" = none ∧
    (P0.postItems body userInfo now ts st0).2.dataFile =
      DiskContent.valid (Json.obj (setField fields0 "items"
        (Json.arr (l0 ++ [P0.mkNewItem body userInfo now ts])))) := by
  obtain ⟨p1, p2, p3, p4⟩ := Srv.postItemsSrv_ok body now ts fields l st h hf hl
  obtain ⟨q1, q2, q3, q4⟩ := P0.postItemsP0_ok body userInfo now ts fields0 l0 st0 h0 hf0 hl0
  have hmk : Srv.mkNewItem body now ts =
      Json.obj [("id", Json.num now), ("createdBy", Json.str "anonymous_user"),
                ("createdAt", Json.str ts)] := by
    simp only [Srv.mkNewItem]
    rw [hb]
    simp [optField]
  have hmk0 : jsField (P0.mkNewItem body userInfo now ts) "content" = none := by
    simp only [P0.mkNewItem]
    rw [jsField]
    rw [hb]
    simp [optField, lookupField]
  exact ⟨p1, p2, hmk, by rw [hmk]; rfl, p3, q1, q2, hmk0, q3⟩

theorem c10_no_validation_witness :
    (Srv.postItems (Json.obj []) 4 "T" emptySrvSt).1.status = 201 ∧
    Srv.mkNewItem (Json.obj []) 4 "T" =
      Json.obj [("id", Json.num 4), ("createdBy", Json.str "anonymous_user"),
                ("createdAt", Json.str "T")] ∧
    (P0.postItems (Json.obj []) (P0.anonInfo "T") 4 "T" emptySrvSt).1.status = 201 ∧
    jsField (P0.mkNewItem (Json.obj []) (P0.anonInfo "T") 4 "T") "content" = none := by
  have h := c10_no_validation (Json.obj []) (P0.anonInfo "T") 4 "T"
      [("items", Json.arr [])] [("items", Json.arr [])] [] [] emptySrvSt emptySrvSt
      rfl rfl rfl rfl rfl rfl rfl
  exact ⟨h.1, h.2.2.1, h.2.2.2.2.2.1, h.2.2.2.2.2.2.2.1⟩
